import Mathlib

/-!
Verification of the bridging-header shims of swift-esp32c6-examples.

The repository consists of five C bridging headers.  Two of them define the
shim function `shim_wifi_init_config` (examples 05_wifi_scan and
06_wifi_fast_scan) and two define `shim_esp_log_level_local` (example
07_logging_errors and the 09_spm_template logger.h).  The shims wrap vendor
ESP-IDF macros that are not part of this repository; those macros are
modelled from the spec as an opaque SDK environment.  The shim bodies and
the headers' top-level declaration lists are embedded from the source.
-/

namespace Esp32c6

/-- Modelled from the spec: the SDK-defined Wi-Fi init configuration struct
(`wifi_init_config_t`).  Its internals belong to the vendor SDK and are out
of scope, so the struct is treated as an opaque payload that the shims pass
through unchanged. -/
structure wifi_init_config_t where
  payload : List Int
  deriving DecidableEq, Repr

/-- Modelled from the spec: the SDK-defined log configuration value
(`esp_log_config_t`).  The shim body reads only its `data` member
(`config.data` in the source); `otherContent` stands for any other content
of the configuration value, which the shim never inspects. -/
structure esp_log_config_t where
  data : Nat
  otherContent : Nat
  deriving DecidableEq, Repr

/-- Caller-visible mutable memory (the world the SDK macro may act on). -/
def World : Type := Nat → Int

/-- Modelled from the spec: an error condition produced by the SDK through
its own conventions; the shim layer passes it through unmodified. -/
inductive SdkOutcome where
  | ok
  | sdkError (code : Int)
  deriving DecidableEq, Repr

/-- A vendor macro invocation, as observed at the shim boundary: which macro
was invoked and with which arguments. -/
inductive SdkCall where
  | wifiInitConfigDefault
  | espLogLevelLocal (level : Nat) (tag : String) (fmt : String)
      (varargs : List String)
  deriving DecidableEq, Repr

/-- Modelled from the spec: the vendor SDK (ESP-IDF), treated as an opaque
external dependency.  It fixes the value the macro `WIFI_INIT_CONFIG_DEFAULT()`
evaluates to in this environment, and the effect on caller-visible memory and
the outcome that the logging macro `ESP_LOG_LEVEL_LOCAL` produces for given
arguments, by the SDK's own conventions. -/
structure SdkEnv where
  wifiInitConfigDefaultValue : wifi_init_config_t
  espLogLevelLocalWorldEffect : Nat → String → String → List String →
      World → World
  espLogLevelLocalOutcome : Nat → String → String → List String → SdkOutcome

/-- Modelled from the spec: evaluation of the vendor macro
`WIFI_INIT_CONFIG_DEFAULT()`.  It evaluates to the vendor-supplied default
configuration value of the environment, and its evaluation is the one
recorded macro invocation. -/
def WIFI_INIT_CONFIG_DEFAULT (env : SdkEnv) :
    wifi_init_config_t × List SdkCall :=
  (env.wifiInitConfigDefaultValue, [SdkCall.wifiInitConfigDefault])

/-- Modelled from the spec: invocation of the vendor logging macro
`ESP_LOG_LEVEL_LOCAL(level, tag, format, ...)`.  It yields the SDK-defined
effect on caller-visible memory, the SDK-defined outcome, and the one
recorded macro invocation carrying exactly the arguments it was given. -/
def ESP_LOG_LEVEL_LOCAL (env : SdkEnv) (level : Nat) (tag : String)
    (fmt : String) (varargs : List String) :
    (World → World) × SdkOutcome × List SdkCall :=
  (env.espLogLevelLocalWorldEffect level tag fmt varargs,
   env.espLogLevelLocalOutcome level tag fmt varargs,
   [SdkCall.espLogLevelLocal level tag fmt varargs])

/-- Embedded from src/05_wifi_scan/main/BridgingHeader.h lines 19-22:
`static inline wifi_init_config_t shim_wifi_init_config(void) {
  wifi_init_config_t config = WIFI_INIT_CONFIG_DEFAULT(); return config; }`.
An invocation takes the caller-visible memory at invocation time and yields
the returned value, the macro invocations performed, and the memory after
the call. -/
def shim_wifi_init_config_05 (env : SdkEnv) (w : World) :
    wifi_init_config_t × List SdkCall × World :=
  let m := WIFI_INIT_CONFIG_DEFAULT env
  let config : wifi_init_config_t := m.1
  (config, m.2, w)

/-- Embedded from src/06_wifi_fast_scan/main/BridgingHeader.h lines 22-25:
the same two-statement body as the 05_wifi_scan definition. -/
def shim_wifi_init_config_06 (env : SdkEnv) (w : World) :
    wifi_init_config_t × List SdkCall × World :=
  let m := WIFI_INIT_CONFIG_DEFAULT env
  let config : wifi_init_config_t := m.1
  (config, m.2, w)

/-- Embedded from src/07_logging_errors/main/BridgingHeader.h lines 39-43:
`static inline void shim_esp_log_level_local(const esp_log_config_t config,
const char *tag, const char *message) {
  ESP_LOG_LEVEL_LOCAL(config.data, tag, "%s", message); }`.
The function returns void; an invocation yields the caller-visible memory
after the call, the SDK outcome, and the macro invocations performed. -/
def shim_esp_log_level_local_07 (env : SdkEnv) (config : esp_log_config_t)
    (tag : String) (message : String) (w : World) :
    World × SdkOutcome × List SdkCall :=
  let m := ESP_LOG_LEVEL_LOCAL env config.data tag ("%s") [message]
  (m.1 w, m.2.1, m.2.2)

/-- Embedded from src/09_spm_template/main/Source/Support/include/logger.h
lines 4-8: the same one-statement body as the 07_logging_errors
definition. -/
def shim_esp_log_level_local_09 (env : SdkEnv) (config : esp_log_config_t)
    (tag : String) (message : String) (w : World) :
    World × SdkOutcome × List SdkCall :=
  let m := ESP_LOG_LEVEL_LOCAL env config.data tag ("%s") [message]
  (m.1 w, m.2.1, m.2.2)

/-- A top-level C declaration as it can appear in one of the five headers:
an include directive, a `#pragma once`, a `static inline` function
definition, or a global object (which would carry load-time initialization
when `loadTimeInit` is true). -/
inductive CDecl where
  | cInclude (path : String)
  | pragmaOnce
  | staticInlineFunction (name : String)
  | globalObject (name : String) (loadTimeInit : Bool)
  deriving DecidableEq, Repr

/-- Whether a declaration is a global object with load-time (runtime)
initialization. -/
def CDecl.isGlobalWithLoadTimeInit : CDecl → Bool
  | .globalObject _ true => true
  | _ => false

/-- Whether every definition a header introduces (beyond includes and
pragmas) is a static inline function. -/
def introducesOnlyStaticInline (ds : List CDecl) : Bool :=
  ds.all fun d =>
    match d with
    | .cInclude _ => true
    | .pragmaOnce => true
    | .staticInlineFunction _ => true
    | .globalObject _ _ => false

/-- Embedded from src/03_blink_colors/main/BridgingHeader.h: its top-level
declarations in source order (comments elided). -/
def header_03_blink_colors : List CDecl :=
  [CDecl.cInclude "stdio.h",
   CDecl.cInclude "freertos/FreeRTOS.h",
   CDecl.cInclude "freertos/task.h",
   CDecl.cInclude "sdkconfig.h",
   CDecl.cInclude "esp_chip_info.h",
   CDecl.cInclude "driver/gpio.h",
   CDecl.cInclude "led_strip.h"]

/-- Embedded from src/05_wifi_scan/main/BridgingHeader.h: its top-level
declarations in source order (comments elided). -/
def header_05_wifi_scan : List CDecl :=
  [CDecl.cInclude "stdio.h",
   CDecl.cInclude "freertos/FreeRTOS.h",
   CDecl.cInclude "freertos/task.h",
   CDecl.cInclude "sdkconfig.h",
   CDecl.cInclude "esp_chip_info.h",
   CDecl.cInclude "nvs_flash.h",
   CDecl.cInclude "esp_wifi.h",
   CDecl.cInclude "string.h",
   CDecl.pragmaOnce,
   CDecl.staticInlineFunction "shim_wifi_init_config"]

/-- Embedded from src/06_wifi_fast_scan/main/BridgingHeader.h: its top-level
declarations in source order (comments elided). -/
def header_06_wifi_fast_scan : List CDecl :=
  [CDecl.cInclude "stdio.h",
   CDecl.cInclude "freertos/FreeRTOS.h",
   CDecl.cInclude "freertos/task.h",
   CDecl.cInclude "esp_chip_info.h",
   CDecl.cInclude "sdkconfig.h",
   CDecl.cInclude "esp_event.h",
   CDecl.cInclude "esp_log.h",
   CDecl.cInclude "esp_wifi.h",
   CDecl.cInclude "nvs_flash.h",
   CDecl.pragmaOnce,
   CDecl.staticInlineFunction "shim_wifi_init_config"]

/-- Embedded from src/07_logging_errors/main/BridgingHeader.h: its top-level
declarations in source order (comments elided). -/
def header_07_logging_errors : List CDecl :=
  [CDecl.cInclude "stdio.h",
   CDecl.cInclude "freertos/FreeRTOS.h",
   CDecl.cInclude "esp_chip_info.h",
   CDecl.cInclude "sdkconfig.h",
   CDecl.cInclude "esp_log.h",
   CDecl.pragmaOnce,
   CDecl.staticInlineFunction "shim_esp_log_level_local"]

/-- Embedded from src/09_spm_template/main/Source/Support/include/logger.h:
its top-level declarations in source order. -/
def header_09_logger : List CDecl :=
  [CDecl.cInclude "esp_log.h",
   CDecl.staticInlineFunction "shim_esp_log_level_local"]

/-- Modelled from the spec: the printf-style formatting the vendor logging
machinery applies to a format string and its variadic string data.  A `%s`
conversion consumes the next datum and inserts it verbatim; `%%` emits a
literal percent sign; every other character of the format is emitted as
itself.  The data are never rescanned for conversions. -/
def formatChars : List Char → List (List Char) → List Char
  | [], _ => []
  | '%' :: 's' :: rest, d :: ds => d ++ formatChars rest ds
  | '%' :: 's' :: rest, [] => formatChars rest []
  | '%' :: '%' :: rest, ds => '%' :: formatChars rest ds
  | c :: rest, ds => c :: formatChars rest ds

/-- Modelled from the spec: the text emitted for a format string and its
variadic string data, via `formatChars`. -/
def printfFormat (fmt : String) (args : List String) : String :=
  String.mk (formatChars fmt.data (args.map String.data))

/-- A concrete SDK environment, used to instantiate the hypothesis-bearing
theorems at a concrete input. -/
def envZero : SdkEnv where
  wifiInitConfigDefaultValue := ⟨[]⟩
  espLogLevelLocalWorldEffect := fun _ _ _ _ w => w
  espLogLevelLocalOutcome := fun _ _ _ _ => SdkOutcome.ok

/-- A concrete caller-visible memory. -/
def worldZero : World := fun _ => 0

/-- C1: for every invocation, `shim_wifi_init_config` (in both
05_wifi_scan and 06_wifi_fast_scan) returns exactly the value that the
vendor macro `WIFI_INIT_CONFIG_DEFAULT()` evaluates to, performs exactly
the macro's invocation and nothing else, and applies no additional logic,
validation, retry, or error handling to that value. -/
theorem shim_wifi_init_config_returns_macro_value (env : SdkEnv) (w : World) :
    shim_wifi_init_config_05 env w
      = ((WIFI_INIT_CONFIG_DEFAULT env).1, (WIFI_INIT_CONFIG_DEFAULT env).2, w)
    ∧ shim_wifi_init_config_06 env w
      = ((WIFI_INIT_CONFIG_DEFAULT env).1, (WIFI_INIT_CONFIG_DEFAULT env).2, w) :=
  ⟨rfl, rfl⟩

/-- C2: for every log configuration, tag and message,
`shim_esp_log_level_local` (in both 07_logging_errors and 09_spm_template)
forwards them into the vendor logging macro `ESP_LOG_LEVEL_LOCAL` in a
single invocation, with the fixed format literal `"%s"` and the message as
its sole datum. -/
theorem shim_esp_log_level_local_forwards (env : SdkEnv)
    (config : esp_log_config_t) (tag message : String) (w : World) :
    (shim_esp_log_level_local_07 env config tag message w).2.2
      = [SdkCall.espLogLevelLocal config.data tag ("%s") [message]]
    ∧ (shim_esp_log_level_local_09 env config tag message w).2.2
      = [SdkCall.espLogLevelLocal config.data tag ("%s") [message]] :=
  ⟨rfl, rfl⟩

/-- C3: neither shim can fail independently of the vendor macro: for all
inputs, `shim_wifi_init_config` always returns the macro's value (it has no
validation or error branch), and the SDK outcome of
`shim_esp_log_level_local` is exactly the outcome the SDK produces for the
forwarded arguments, with no error translation or suppression applied. -/
theorem shims_pass_sdk_errors_through (env : SdkEnv) (w : World) :
    (∀ config : esp_log_config_t, ∀ tag message : String,
      (shim_esp_log_level_local_07 env config tag message w).2.1
        = env.espLogLevelLocalOutcome config.data tag ("%s") [message])
    ∧ (shim_wifi_init_config_05 env w).1 = env.wifiInitConfigDefaultValue :=
  ⟨fun _ _ _ => rfl, rfl⟩

/-- C4: each shim is a pure, deterministic forwarding call:
`shim_wifi_init_config` returns equal configuration values on any two
invocations in the same environment (whatever the caller-visible memory at
each invocation), it leaves that memory unchanged, and the memory after
`shim_esp_log_level_local` is exactly the vendor macro's own effect — the
shims read and write no mutable state of their own. -/
theorem shims_deterministic_and_stateless (env : SdkEnv) (w₁ w₂ : World) :
    (shim_wifi_init_config_05 env w₁).1 = (shim_wifi_init_config_05 env w₂).1
    ∧ (shim_wifi_init_config_06 env w₁).1 = (shim_wifi_init_config_06 env w₂).1
    ∧ (shim_wifi_init_config_05 env w₁).2.2 = w₁
    ∧ (∀ config : esp_log_config_t, ∀ tag message : String,
        (shim_esp_log_level_local_07 env config tag message w₁).1
          = env.espLogLevelLocalWorldEffect config.data tag ("%s") [message] w₁) :=
  ⟨rfl, rfl, rfl, fun _ _ _ => rfl⟩

/-- C5: the shims pass the SDK configuration data through unchanged and add
no observable effect beyond the wrapped macro: `shim_wifi_init_config`
returns the constructed default value with no field modified between
construction and return, and `shim_esp_log_level_local` performs exactly
one macro invocation — the wrapped one — and its effect on caller-visible
memory (which holds the config, tag and message the caller sees) is exactly
the macro's own. -/
theorem shims_frame_effect (env : SdkEnv) (w : World) :
    (shim_wifi_init_config_05 env w).1 = (WIFI_INIT_CONFIG_DEFAULT env).1
    ∧ (∀ config : esp_log_config_t, ∀ tag message : String,
        ((shim_esp_log_level_local_07 env config tag message w).2.2).length = 1
        ∧ (shim_esp_log_level_local_07 env config tag message w).2.2
          = (ESP_LOG_LEVEL_LOCAL env config.data tag ("%s") [message]).2.2
        ∧ (shim_esp_log_level_local_07 env config tag message w).1
          = (ESP_LOG_LEVEL_LOCAL env config.data tag ("%s") [message]).1 w) :=
  ⟨rfl, fun _ _ _ => ⟨rfl, rfl, rfl⟩⟩

/-- C6: none of the five headers defines a global object (so none carries
load-time initialization), and every definition they introduce beyond
includes and pragmas is a static inline function: inclusion alone
initializes no global state. -/
theorem headers_have_no_load_time_effects :
    (introducesOnlyStaticInline header_03_blink_colors = true
      ∧ header_03_blink_colors.filter CDecl.isGlobalWithLoadTimeInit = [])
    ∧ (introducesOnlyStaticInline header_05_wifi_scan = true
      ∧ header_05_wifi_scan.filter CDecl.isGlobalWithLoadTimeInit = [])
    ∧ (introducesOnlyStaticInline header_06_wifi_fast_scan = true
      ∧ header_06_wifi_fast_scan.filter CDecl.isGlobalWithLoadTimeInit = [])
    ∧ (introducesOnlyStaticInline header_07_logging_errors = true
      ∧ header_07_logging_errors.filter CDecl.isGlobalWithLoadTimeInit = [])
    ∧ (introducesOnlyStaticInline header_09_logger = true
      ∧ header_09_logger.filter CDecl.isGlobalWithLoadTimeInit = []) := by
  decide

/-- C7: the definition of `shim_wifi_init_config` in 05_wifi_scan and the
one in 06_wifi_fast_scan denote the same function: in every environment and
from every caller-visible memory they yield equal results. -/
theorem shim_wifi_init_config_05_eq_06 (env : SdkEnv) (w : World) :
    shim_wifi_init_config_05 env w = shim_wifi_init_config_06 env w :=
  rfl

/-- C8: the definition of `shim_esp_log_level_local` in 07_logging_errors
and the one in 09_spm_template are behaviorally identical: for every
config, tag, message and caller-visible memory they perform the same macro
invocation with the same arguments and yield equal results. -/
theorem shim_esp_log_level_local_07_eq_09 (env : SdkEnv)
    (config : esp_log_config_t) (tag message : String) (w : World) :
    shim_esp_log_level_local_07 env config tag message w
      = shim_esp_log_level_local_09 env config tag message w :=
  rfl

/-- C9: `shim_esp_log_level_local` is format-string safe: for every message
— including one containing printf conversion specifiers — the format handed
to the vendor macro is the constant `"%s"` with the message as its single
datum, and formatting `"%s"` with that datum emits the message verbatim,
never rescanning it for conversions. -/
theorem shim_esp_log_level_local_format_safe (env : SdkEnv)
    (config : esp_log_config_t) (tag message : String) (w : World) :
    (shim_esp_log_level_local_07 env config tag message w).2.2
      = [SdkCall.espLogLevelLocal config.data tag ("%s") [message]]
    ∧ printfFormat ("%s") [message] = message := by
  refine ⟨rfl, ?_⟩
  cases message with
  | mk l => simp [printfFormat, formatChars, String.data]

/-- C10: the observable behavior of `shim_esp_log_level_local` depends only
on the `data` member of its config (and the tag, message and memory): two
configs agreeing on `data` yield identical results in both the
07_logging_errors and the 09_spm_template definition, whatever their other
content. -/
theorem shim_esp_log_level_local_depends_only_on_data (env : SdkEnv)
    (c₁ c₂ : esp_log_config_t) (tag message : String) (w : World)
    (h : c₁.data = c₂.data) :
    shim_esp_log_level_local_07 env c₁ tag message w
      = shim_esp_log_level_local_07 env c₂ tag message w
    ∧ shim_esp_log_level_local_09 env c₁ tag message w
      = shim_esp_log_level_local_09 env c₂ tag message w := by
  constructor
  · unfold shim_esp_log_level_local_07
    rw [h]
  · unfold shim_esp_log_level_local_09
    rw [h]

/-- Witness for C10: two concrete configs that differ in their other
content but agree on `data` give identical shim results. -/
theorem shim_esp_log_level_local_depends_only_on_data_witness :
    ((⟨3, 0⟩ : esp_log_config_t).data = (⟨3, 1⟩ : esp_log_config_t).data)
    ∧ (shim_esp_log_level_local_07 envZero ⟨3, 0⟩ ("t") ("m") worldZero
        = shim_esp_log_level_local_07 envZero ⟨3, 1⟩ ("t") ("m") worldZero
      ∧ shim_esp_log_level_local_09 envZero ⟨3, 0⟩ ("t") ("m") worldZero
        = shim_esp_log_level_local_09 envZero ⟨3, 1⟩ ("t") ("m") worldZero) :=
  ⟨rfl, shim_esp_log_level_local_depends_only_on_data envZero ⟨3, 0⟩ ⟨3, 1⟩
    ("t") ("m") worldZero rfl⟩

end Esp32c6
